import Mathlib

/-!
Shallow embedding of the data pipeline of the `speech_joey` repository
(`src/joeynmt/data.py` and `src/joeynmt/helpers.py`), together with proofs
about the claims of its specification.

Conventions of the embedding:
* Python strings are Lean `String`s; Python lists are Lean `List`s.
* Python's non-negative integers (lengths, file sizes, frame counts) are `Nat`;
  quantities that can meaningfully be negative (the `voc_min_freq` sentinel, the
  `shape[0] - 1` arithmetic of the dummy-source construction) are `Int`.
* File contents are passed as `List String` (the list of lines of the file);
  all file I/O in the source is eager, so this loses nothing.
* The external audio world (`torchaudio.load`, `librosa.load`,
  `librosa.feature.mfcc`, `os.path.getsize`) is an oracle `AudioEnv` mapping the
  audio-reference line to the frame count of the extracted feature matrix
  (`features.T.shape[0]`) and to the referenced file's byte size.  The raw
  tensors themselves are never inspected by the code being verified beyond
  these two numbers, so an example carries the reference line and frame count
  in their place.
* A Python function that can raise is embedded as `Except PyErr _`.
-/

deriving instance DecidableEq for Except

namespace SpeechJoey

/-- Python exceptions raised by the embedded code paths. -/
inductive PyErr where
  | indexError
  | nameError
  | zeroDivisionError
  | typeError
deriving DecidableEq

/-! ### Reserved tokens

`joeynmt/constants.py` is not under `src/`.  Modelled from the spec: the four
reserved tokens are unknown, padding, sequence-start and sequence-end, in that
order (`specials = [UNK_TOKEN, PAD_TOKEN, BOS_TOKEN, EOS_TOKEN]` in
`build_vocab`); their concrete spellings are immaterial to every claim. -/

def UNK_TOKEN : String := "<unk>"

def PAD_TOKEN : String := "<pad>"

def BOS_TOKEN : String := "<s>"

def EOS_TOKEN : String := "</s>"

/-- The `specials` list of `helpers.build_vocab`. -/
def specials : List String := [UNK_TOKEN, PAD_TOKEN, BOS_TOKEN, EOS_TOKEN]

/-! ### String primitives

Embeddings of the Python string operations used by the loaders.  The inputs
are single lines of text files, so the only whitespace character that matters
is the space. -/

/-- Python `str.strip()`: drop leading and trailing whitespace (spaces here;
line terminators are already removed by line splitting). -/
def pyStrip (s : String) : String :=
  String.mk (((s.data.dropWhile (fun c => c == ' ')).reverse.dropWhile
    (fun c => c == ' ')).reverse)

/-- Helper for `pySplit`: cut a character list at every space (kept groups may
be empty; `pySplit` discards the empty ones, like Python `str.split()`). -/
def splitSp : List Char → List (List Char)
  | [] => [[]]
  | c :: cs =>
    if c == ' ' then [] :: splitSp cs
    else
      match splitSp cs with
      | [] => [[c]]
      | w :: ws => (c :: w) :: ws

/-- Python `str.split()` (whitespace split, empty fields discarded): the
tokenizer `lambda s: s.split()` used for the `bpe`/`word` levels. -/
def pySplit (s : String) : List String :=
  (splitSp s.data).filterMap (fun w => if w.isEmpty then none else some (String.mk w))

/-- Python `list(s)`: the tokenizer used for the `char` level; each character
becomes one token. -/
def charTok (s : String) : List String :=
  s.data.map (fun c => String.mk [c])

/-- Python `s * n` for a string `s` and an integer `n` (empty when `n ≤ 0`). -/
def pyRepeat (s : String) (n : Int) : String :=
  String.mk (List.flatten (List.replicate n.toNat s.data))

/-- The tokenizer selected by `level == "char"` (`tok_fun` in
`load_data`/`load_audio_data`), keyed by the derived `char` flag. -/
def tokOf (char : Bool) : String → List String :=
  if char then charTok else pySplit

/-! ### Text examples and the vocabulary builder (`helpers.build_vocab`) -/

/-- A torchtext `Example` of the text pipeline: the `src` and `trg` token
sequences produced by the fields' preprocessing. -/
structure TextExample where
  src : List String
  trg : List String
deriving DecidableEq

/-- The token-collection loop of `build_vocab`:
`for i in dataset.examples: tokens.extend(i.src / i.trg)` guarded by
`field == "src"` / `field == "trg"`. -/
def extractTokens (field : String) (examples : List TextExample) : List String :=
  (examples.map (fun i =>
    if field = "src" then i.src else if field = "trg" then i.trg else [])).flatten

/-- The keys of `collections.Counter(tokens)` in first-occurrence order. -/
def counterKeys : List String → List String
  | [] => []
  | t :: ts => t :: counterKeys (ts.filter (fun u => u ≠ t))
termination_by l => l.length
decreasing_by
  simp only [List.length_cons]
  exact Nat.lt_succ_of_le (List.length_filter_le _ _)

/-- `collections.Counter(tokens)` as an association list `(token, count)` in
first-occurrence key order. -/
def counterItems (tokens : List String) : List (String × Nat) :=
  (counterKeys tokens).map (fun t => (t, tokens.count t))

/-- `filter_min` of `build_vocab`: keep the `(token, count)` pairs with
`count >= min_freq`. -/
def filter_min (counter : List (String × Nat)) (minFreq : Int) : List (String × Nat) :=
  counter.filter (fun tc => minFreq ≤ (tc.2 : Int))

/-- Key of the first pass of `sort_and_cut`:
`sorted(counter.items(), key=lambda tup: tup[0])`, a stable sort by token,
lexicographically ascending. -/
def tokLe (a b : String × Nat) : Prop := a.1 ≤ b.1

/-- Key of the second pass of `sort_and_cut`:
`tokens_and_frequencies.sort(key=lambda tup: tup[1], reverse=True)`, a stable
sort by count, descending. -/
def cntGe (a b : String × Nat) : Prop := b.2 ≤ a.2

/-- The ranking named by the spec: count descending, ties broken by token
ascending. -/
def rankLe (a b : String × Nat) : Prop := b.2 < a.2 ∨ (a.2 = b.2 ∧ a.1 ≤ b.1)

instance : DecidableRel tokLe :=
  fun a b => inferInstanceAs (Decidable (a.1 ≤ b.1))

instance : DecidableRel cntGe :=
  fun a b => inferInstanceAs (Decidable (b.2 ≤ a.2))

instance : DecidableRel rankLe :=
  fun a b => inferInstanceAs (Decidable (b.2 < a.2 ∨ (a.2 = b.2 ∧ a.1 ≤ b.1)))

instance : IsTotal (String × Nat) tokLe :=
  ⟨fun a b => le_total a.1 b.1⟩

instance : IsTrans (String × Nat) tokLe :=
  ⟨fun _ _ _ h1 h2 => le_trans h1 h2⟩

instance : IsTotal (String × Nat) cntGe :=
  ⟨fun a b => Nat.le_total b.2 a.2⟩

instance : IsTrans (String × Nat) cntGe :=
  ⟨fun _ _ _ h1 h2 => Nat.le_trans h2 h1⟩

instance : IsTotal (String × Nat) rankLe := by
  constructor
  intro a b
  rcases Nat.lt_trichotomy a.2 b.2 with h | h | h
  · exact Or.inr (Or.inl h)
  · rcases le_total a.1 b.1 with h1 | h1
    · exact Or.inl (Or.inr ⟨h, h1⟩)
    · exact Or.inr (Or.inr ⟨h.symm, h1⟩)
  · exact Or.inl (Or.inl h)

instance : IsTrans (String × Nat) rankLe := by
  constructor
  intro a b c hab hbc
  rcases hab with hab | ⟨hab, hab'⟩
  · rcases hbc with hbc | ⟨hbc, _⟩
    · exact Or.inl (Nat.lt_trans hbc hab)
    · exact Or.inl (hbc ▸ hab)
  · rcases hbc with hbc | ⟨hbc, hbc'⟩
    · exact Or.inl (hab ▸ hbc)
    · exact Or.inr ⟨hab.trans hbc, hab'.trans hbc'⟩

instance : IsAntisymm (String × Nat) rankLe := by
  constructor
  intro a b hab hba
  rcases hab with hab | ⟨hab, hab'⟩
  · rcases hba with hba | ⟨hba, _⟩
    · exact absurd (Nat.lt_trans hab hba) (Nat.lt_irrefl _)
    · exact absurd (hba ▸ hab) (Nat.lt_irrefl _)
  · rcases hba with hba | ⟨_, hba'⟩
    · exact absurd (hab ▸ hba) (Nat.lt_irrefl _)
    · exact Prod.ext (le_antisymm hab' hba') hab

/-- `sort_and_cut` of `build_vocab`: stable sort by token ascending, stable
re-sort by count descending, cut to the first `limit` entries, keep the
tokens.  Python's `sorted`/`list.sort` are stable; `List.insertionSort` is the
stable sort of the embedding. -/
def sort_and_cut (counter : List (String × Nat)) (limit : Nat) : List String :=
  ((List.insertionSort cntGe (List.insertionSort tokLe counter)).take limit).map Prod.fst

/-- The build-from-data path of `helpers.build_vocab` (the `vocab_file is
None` branch), up to the token list handed to the `Vocabulary` constructor:
collect the selected field's tokens, count them, drop counts below `min_freq`
unless `min_freq ≤ -1`, and prepend the reserved tokens to the
sorted-and-cut ranking. -/
def build_vocab_tokens (field : String) (maxSize : Nat) (minFreq : Int)
    (examples : List TextExample) : List String :=
  let tokens := extractTokens field examples
  let counter := counterItems tokens
  let counter2 := if minFreq > -1 then filter_min counter minFreq else counter
  specials ++ sort_and_cut counter2 maxSize

/-- The frequency-surviving `(token, count)` pairs, as the claim for
`build_vocab` describes them: all counted tokens when `min_freq ≤ -1`, else
those with count at least `min_freq`. -/
def survivingItems (tokens : List String) (minFreq : Int) : List (String × Nat) :=
  if minFreq > -1 then filter_min (counterItems tokens) minFreq else counterItems tokens

/-- The ranking stated by the claim for `build_vocab`: the surviving tokens
ordered by count descending with ties broken by ascending token order,
truncated to the first `maxSize`. -/
def specRankedTokens (tokens : List String) (minFreq : Int) (maxSize : Nat) : List String :=
  ((List.insertionSort rankLe (survivingItems tokens minFreq)).take maxSize).map Prod.fst

/-! ### Text corpus loader (`load_data`, identical in both source files) -/

/-- Modelled from the spec: torchtext's `TranslationDataset` (an external
collaborator, not under `src/`) reads the two line-aligned files, strips each
line, keeps the aligned pairs whose two sides are both non-empty, builds an
`Example` whose `src`/`trg` are the fields' tokenizations, and — via
`data.Dataset.__init__` — keeps only the examples satisfying `filter_pred`
when one is given. -/
def translationDatasetExamples (tok : String → List String)
    (srcLines trgLines : List String) (filterPred : TextExample → Bool) :
    List TextExample :=
  ((srcLines.zip trgLines).filterMap (fun p =>
    let s := pyStrip p.1
    let t := pyStrip p.2
    if s ≠ "" ∧ t ≠ "" then some ⟨tok s, tok t⟩ else none)).filter filterPred

/-- The training-split construction of `load_data`: `TranslationDataset` with
`filter_pred = lambda x: len(x.src) <= max_sent_length and
len(x.trg) <= max_sent_length`. -/
def loadDataTrainExamples (tok : String → List String) (maxSentLength : Nat)
    (srcLines trgLines : List String) : List TextExample :=
  translationDatasetExamples tok srcLines trgLines
    (fun x => decide (x.src.length ≤ maxSentLength) && decide (x.trg.length ≤ maxSentLength))

/-- The dev-split construction of `load_data`: `TranslationDataset` with no
`filter_pred` (and the test split with a target file is built identically). -/
def loadDataDevExamples (tok : String → List String)
    (srcLines trgLines : List String) : List TextExample :=
  translationDatasetExamples tok srcLines trgLines (fun _ => true)

/-! ### Batch iterator (`make_data_iter`, identical in both source files) -/

/-- Source-length comparison used by `sort_key=lambda x: len(x.src)`. -/
def srcLenLe (a b : TextExample) : Prop := a.src.length ≤ b.src.length

instance : DecidableRel srcLenLe :=
  fun a b => inferInstanceAs (Decidable (a.src.length ≤ b.src.length))

instance : IsTotal TextExample srcLenLe :=
  ⟨fun a b => Nat.le_total a.src.length b.src.length⟩

instance : IsTrans TextExample srcLenLe :=
  ⟨fun _ _ _ h1 h2 => Nat.le_trans h1 h2⟩

/-- Consecutive grouping of a dataset into batches of `n` examples (the final
group may be smaller). -/
def chunkList (n : Nat) : List α → List (List α)
  | [] => []
  | x :: xs =>
    if n = 0 then []
    else (x :: xs).take n :: chunkList n (xs.drop (n - 1))
termination_by l => l.length
decreasing_by
  simp only [List.length_drop, List.length_cons]
  omega

/-- Modelled from the spec: torchtext's `BucketIterator`/`Iterator` (external
collaborators, not under `src/`) as configured by `make_data_iter`.  Training
mode (`sort=False`, `sort_within_batch=True`, `sort_key=len(x.src)`,
`repeat=False`) groups the examples — globally shuffled first when the shuffle
flag is set, represented by the `permute` oracle — into buckets and sorts each
bucket by source length ascending; evaluation mode batches strictly in file
order with no sorting or shuffling. -/
def makeDataIter (dataset : List TextExample) (batchSize : Nat)
    (train shuffle : Bool) (permute : List TextExample → List TextExample) :
    List (List TextExample) :=
  if train then
    (chunkList batchSize (if shuffle then permute dataset else dataset)).map
      (List.insertionSort srcLenLe)
  else chunkList batchSize dataset

/-! ### Audio corpus loader (`AudioDataset` in both source files) -/

/-- Oracle for the external audio world, per audio-reference line:
`frames s` is `librosa.feature.mfcc(...).T.shape[0]` for the audio that `s`
references, and `fsize s` is `os.path.getsize(s)`. -/
structure AudioEnv where
  frames : String → Nat
  fsize : String → Nat

/-- A torchtext `Example` of the audio pipeline, with fields
`[('trg', field), ('audio', raw), ('audio2', raw), ('mfcc', raw),
('src', field)]`.  The raw payloads `audio`/`audio2` (the waveforms loaded by
`torchaudio`/`librosa` from the referenced file) are represented by the
reference line, and `mfcc` (the feature matrix) by its frame count — the only
datum of the matrix the loaders consult. -/
structure AudioExample where
  trg : List String
  audio : String
  mfcc : Nat
  src : List String
deriving DecidableEq

/-- The dummy source line of `AudioDataset.__init__`:
`"a" * (featuresT.shape[0] - 1)` at character level, else
`"a " * (featuresT.shape[0] - 1)`. -/
def audioDummy (char : Bool) (fr : Nat) : String :=
  if char then pyRepeat "a" ((fr : Int) - 1) else pyRepeat "a " ((fr : Int) - 1)

/-- `data.Example.fromlist([text_line, sound, y, featureS, audio_dummy],
fields)` for an aligned (already stripped) pair: `trg` and `src` are the
field's tokenization of the transcript line and of the dummy source line. -/
def mkAudioExample (env : AudioEnv) (tok : String → List String) (char : Bool)
    (t a : String) : AudioExample :=
  { trg := tok t
    audio := a
    mfcc := env.frames a
    src := tok (audioDummy char (env.frames a)) }

/-- The per-line loop of `helpers.AudioDataset.__init__`: strip both lines,
extract the features, and append an example — unconditionally when
`train` is false, and only when `text_line != '' and audio_line != '' and
os.path.getsize(audio_line) > 44 and check < 10` (with
`check = featuresT.shape[0] // (len(text_line) + 1)`) when `train` is true.
Returns the examples together with the statistics counter `count`, which is
incremented exactly when an example is appended. -/
def audioLoop (env : AudioEnv) (tok : String → List String) (char train : Bool) :
    List (String × String) → List AudioExample × Nat
  | [] => ([], 0)
  | p :: rest =>
    let t := pyStrip p.1
    let a := pyStrip p.2
    let check := env.frames a / (t.length + 1)
    let prev := audioLoop env tok char train rest
    if train then
      if t ≠ "" ∧ a ≠ "" ∧ 44 < env.fsize a ∧ check < 10 then
        (mkAudioExample env tok char t a :: prev.1, prev.2 + 1)
      else prev
    else (mkAudioExample env tok char t a :: prev.1, prev.2 + 1)

/-- `helpers.AudioDataset.__init__` on the line lists of the transcript and
audio-reference files: raise `IndexError` when the line counts differ, run the
per-line loop, write the statistics line — whose `mean = summa/count` raises
`ZeroDivisionError` when `count == 0` — and hand the examples to
`data.Dataset.__init__`, which keeps those satisfying `filter_pred`
(`fun _ => true` models the absent `filter_pred` of the dev/test calls). -/
def audioInitHelpers (env : AudioEnv) (tok : String → List String)
    (char train : Bool) (textLines audioLines : List String)
    (filterPred : AudioExample → Bool) : Except PyErr (List AudioExample) :=
  if textLines.length ≠ audioLines.length then .error .indexError
  else
    let res := audioLoop env tok char train (textLines.zip audioLines)
    if res.2 = 0 then .error .zeroDivisionError
    else .ok (res.1.filter filterPred)

/-- `data.AudioDataset.__init__`: textually the same constructor, but
`data.py` imports neither `torchaudio as ta` nor `librosa` nor `torch`, so
the first statement of every loop iteration, `ta.load(audio_line)`, raises
`NameError`; with equal line counts and no lines at all, the loop body never
runs and the statistics line's `summa/count` raises `ZeroDivisionError`.
The length check precedes the loop, so differing line counts still raise
`IndexError` first. -/
def audioInitData (textLines audioLines : List String) :
    Except PyErr (List AudioExample) :=
  if textLines.length ≠ audioLines.length then .error .indexError
  else
    match textLines.zip audioLines with
    | [] => .error .zeroDivisionError
    | _ :: _ => .error .nameError

/-- The training-split construction of `helpers.load_audio_data`:
`AudioDataset(..., train=True, filter_pred=lambda x: len(x.src) <=
max_audio_length and len(x.trg) <= max_sent_length)`, with the tokenizer tied
to the `char` flag as `load_audio_data` derives both from `level`. -/
def loadAudioTrainData (env : AudioEnv) (char : Bool) (maxAudio maxSent : Nat)
    (textLines audioLines : List String) : Except PyErr (List AudioExample) :=
  audioInitHelpers env (tokOf char) char true textLines audioLines
    (fun x => decide (x.src.length ≤ maxAudio) && decide (x.trg.length ≤ maxSent))

/-- The full condition under which the training-split audio pipeline keeps an
aligned (stripped) pair: the in-loop guard of `AudioDataset.__init__` together
with the `filter_pred` length bounds of `load_audio_data`, the latter phrased
through the quantities they test (`len(x.src)` is the frame count minus one,
`len(x.trg)` the transcript's token count). -/
def keepCondAmended (env : AudioEnv) (char : Bool) (maxAudio maxSent : Nat)
    (t a : String) : Prop :=
  t ≠ "" ∧ a ≠ "" ∧ 44 < env.fsize a ∧ env.frames a / (t.length + 1) < 10 ∧
    env.frames a - 1 ≤ maxAudio ∧ (tokOf char t).length ≤ maxSent

instance (env : AudioEnv) (char : Bool) (maxAudio maxSent : Nat) (t a : String) :
    Decidable (keepCondAmended env char maxAudio maxSent t a) := by
  unfold keepCondAmended
  infer_instance

/-- The keep-condition exactly as the corresponding claim states it: transcript
non-empty, byte size above the threshold, ratio check strictly below 10, frame
count within `max_audio_length`, transcript token count within
`max_sent_length`. -/
def keepCondClaimed (env : AudioEnv) (char : Bool) (maxAudio maxSent : Nat)
    (t a : String) : Prop :=
  t ≠ "" ∧ 44 < env.fsize a ∧ env.frames a / (t.length + 1) < 10 ∧
    env.frames a ≤ maxAudio ∧ (tokOf char t).length ≤ maxSent

instance (env : AudioEnv) (char : Bool) (maxAudio maxSent : Nat) (t a : String) :
    Decidable (keepCondClaimed env char maxAudio maxSent t a) := by
  unfold keepCondClaimed
  infer_instance

/-! ### `helpers.load_audio_data` and the `build_vocab` call -/

/-- The parameter names of `helpers.build_vocab(field, max_size, min_freq,
dataset, vocab_file)`. -/
def buildVocabParams : List String :=
  ["field", "max_size", "min_freq", "dataset", "vocab_file"]

/-- The keyword-argument names of the `build_vocab` call in
`helpers.load_audio_data` (note `data=train_data`). -/
def loadAudioVocabKwargs : List String :=
  ["field", "min_freq", "max_size", "data", "vocab_file"]

/-- Python keyword binding: a call binds only when every keyword argument
names a parameter of the callee; otherwise it raises `TypeError`. -/
def kwargsAccepted (params kwargs : List String) : Bool :=
  kwargs.all (fun k => params.contains k)

/-- `helpers.load_audio_data` up to its `build_vocab` call: construct the
training `AudioDataset`, then call `build_vocab` with the keyword `data=`.
The binding check fails, so the call raises `TypeError`; the remainder of the
function (dev/test datasets, vocabulary assignment, return) is unreachable and
not modelled. -/
def helpersLoadAudioData (env : AudioEnv) (char : Bool) (maxAudio maxSent : Nat)
    (trainText trainAudio : List String) : Except PyErr (List AudioExample) :=
  match loadAudioTrainData env char maxAudio maxSent trainText trainAudio with
  | .error e => .error e
  | .ok td =>
    if kwargsAccepted buildVocabParams loadAudioVocabKwargs then .ok td
    else .error .typeError

/-! ### Concrete inputs used by counterexamples and witnesses -/

/-- Environment where every referenced audio extracts to 4 frames and has byte
size 100. -/
def envFour : AudioEnv := ⟨fun _ => 4, fun _ => 100⟩

/-- Environment where every referenced audio extracts to 2 frames and has byte
size 0. -/
def envTiny : AudioEnv := ⟨fun _ => 2, fun _ => 0⟩

/-- A one-token text example. -/
def exT : TextExample := ⟨["a"], ["b"]⟩

/-! ## Lemmas about stable sorting -/

/-- Inserting `x` into `l` preserves `Pairwise q` provided a failed comparison
implies `q` backwards and `x` is `q`-related to everything in `l`: the
stability core of insertion sort. -/
theorem pairwise_orderedInsert {α : Type _} (q r : α → α → Prop) [DecidableRel r]
    (hrq : ∀ a b, ¬r a b → q b a) (x : α) :
    ∀ l : List α, l.Pairwise q → (∀ z ∈ l, q x z) →
      (List.orderedInsert r x l).Pairwise q := by
  intro l
  induction l with
  | nil => intro _ _; simp
  | cons y ys ih =>
    intro hl hx
    rw [List.orderedInsert]
    by_cases h : r x y
    · rw [if_pos h]
      exact List.Pairwise.cons hx hl
    · rw [if_neg h]
      rcases List.pairwise_cons.mp hl with ⟨hy, hys⟩
      refine List.Pairwise.cons ?_
        (ih hys (fun z hz => hx z (List.mem_cons_of_mem _ hz)))
      intro z hz
      rcases List.mem_cons.mp ((List.perm_orderedInsert r x ys).mem_iff.mp hz) with
        heq | hz'
      · rw [heq]
        exact hrq x y h
      · exact hy z hz'

/-- Insertion sort by `r` preserves `Pairwise q` when a failed `r`-comparison
implies `q` backwards: sorting a list that is pairwise `q` (for instance,
already sorted by a tie-breaking key) keeps `q` between every pair, which is
exactly stability. -/
theorem pairwise_insertionSort {α : Type _} (q r : α → α → Prop) [DecidableRel r]
    (hrq : ∀ a b, ¬r a b → q b a) :
    ∀ l : List α, l.Pairwise q → (List.insertionSort r l).Pairwise q := by
  intro l
  induction l with
  | nil => intro _; simp
  | cons x xs ih =>
    intro hl
    rw [List.insertionSort]
    rcases List.pairwise_cons.mp hl with ⟨hx, hxs⟩
    exact pairwise_orderedInsert q r hrq x _ (ih hxs)
      (fun z hz => hx z ((List.perm_insertionSort r xs).mem_iff.mp hz))

/-- The two-pass stable sort of `sort_and_cut` (by token ascending, then by
count descending) equals the one-pass sort by count descending with ties
broken by token ascending. -/
theorem sort_twice_eq (l : List (String × Nat)) :
    List.insertionSort cntGe (List.insertionSort tokLe l) =
      List.insertionSort rankLe l := by
  have h1 : (List.insertionSort tokLe l).Pairwise fun a b => a.2 = b.2 → a.1 ≤ b.1 := by
    refine (List.sorted_insertionSort tokLe l).imp ?_
    intro a b hab _
    exact hab
  have h2 : (List.insertionSort cntGe (List.insertionSort tokLe l)).Pairwise
      fun a b => a.2 = b.2 → a.1 ≤ b.1 :=
    pairwise_insertionSort _ cntGe
      (fun _ _ hab heq => absurd (le_of_eq heq) hab) _ h1
  have h3 : (List.insertionSort cntGe (List.insertionSort tokLe l)).Sorted cntGe :=
    List.sorted_insertionSort cntGe _
  have h4 : (List.insertionSort cntGe (List.insertionSort tokLe l)).Sorted rankLe := by
    refine (h3.and h2).imp ?_
    rintro a b ⟨hc, hq⟩
    rcases Nat.lt_or_ge b.2 a.2 with hlt | hge
    · exact Or.inl hlt
    · have heq : a.2 = b.2 := Nat.le_antisymm hge hc
      exact Or.inr ⟨heq, hq heq⟩
  have hpa : List.Perm (List.insertionSort cntGe (List.insertionSort tokLe l))
      (List.insertionSort tokLe l) := List.perm_insertionSort cntGe _
  have hpb : List.Perm (List.insertionSort tokLe l) l := List.perm_insertionSort tokLe l
  have hpc : List.Perm (List.insertionSort rankLe l) l := List.perm_insertionSort rankLe l
  exact List.eq_of_perm_of_sorted ((hpa.trans hpb).trans hpc.symm) h4
    (List.sorted_insertionSort rankLe l)

/-! ## C1 -/

/-- C1: for every training dataset, minimum-frequency threshold and maximum
size, the build-from-data path of `build_vocab` produces the four reserved
tokens (unknown, padding, sequence-start, sequence-end, in that order)
followed by the frequency-surviving tokens ranked by count descending with
ties broken by ascending token order, truncated to the first `max_size` ranked
tokens. -/
theorem c1_build_vocab_ranking (field : String) (maxSize : Nat) (minFreq : Int)
    (examples : List TextExample) :
    build_vocab_tokens field maxSize minFreq examples =
      specials ++ specRankedTokens (extractTokens field examples) minFreq maxSize := by
  simp only [build_vocab_tokens, specRankedTokens, survivingItems, sort_and_cut,
    sort_twice_eq]

/-! ## C2 -/

/-- C2: the length filter of the text corpus loader is applied only when
loading the training split — the training examples are exactly the unfiltered
aligned examples restricted by the length bound, while the dev split (and a
test split with a target file, built identically) always yields the unfiltered
aligned examples; in particular, loading src `["a b", "c"]` and trg
`["x y", "z"]` as a training set yields 2 examples with `max_sent_length = 10`
and exactly 1 example with `max_sent_length = 1`. -/
theorem c2_length_filter_train_only :
    (∀ (tok : String → List String) (maxSentLength : Nat)
        (srcLines trgLines : List String),
        loadDataTrainExamples tok maxSentLength srcLines trgLines =
            (translationDatasetExamples tok srcLines trgLines (fun _ => true)).filter
              (fun x => decide (x.src.length ≤ maxSentLength) &&
                decide (x.trg.length ≤ maxSentLength))
          ∧ loadDataDevExamples tok srcLines trgLines =
              translationDatasetExamples tok srcLines trgLines (fun _ => true))
      ∧ (loadDataTrainExamples pySplit 10 ["a b", "c"] ["x y", "z"]).length = 2
      ∧ (loadDataTrainExamples pySplit 1 ["a b", "c"] ["x y", "z"]).length = 1 := by
  refine ⟨fun tok maxSentLength srcLines trgLines => ⟨?_, rfl⟩, by decide, by decide⟩
  simp only [loadDataTrainExamples, translationDatasetExamples, List.filter_true]

/-! ## C3 -/

/-- C3: for every pair of input files with differing line counts, audio
dataset construction — in the `helpers.py` version and in the `data.py`
version alike — raises the alignment `IndexError` and produces no examples at
all. -/
theorem c3_alignment_error (env : AudioEnv) (tok : String → List String)
    (char train : Bool) (textLines audioLines : List String)
    (filterPred : AudioExample → Bool)
    (h : textLines.length ≠ audioLines.length) :
    audioInitHelpers env tok char train textLines audioLines filterPred =
        .error .indexError
      ∧ audioInitData textLines audioLines = .error .indexError := by
  constructor
  · simp only [audioInitHelpers]
    rw [if_pos h]
  · simp only [audioInitData]
    rw [if_pos h]

/-- Witness for C3 at a concrete misaligned input. -/
theorem c3_alignment_error_witness :
    audioInitHelpers envFour pySplit false true ["a"] [] (fun _ => true) =
        .error .indexError
      ∧ audioInitData ["a"] [] = .error .indexError :=
  c3_alignment_error envFour pySplit false true ["a"] [] (fun _ => true) (by decide)

/-! ## C6 -/

/-- C6: in training mode with the shuffle flag disabled, every batch produced
by `make_data_iter` lists its examples in non-decreasing order of source
length. -/
theorem c6_train_batches_sorted (dataset : List TextExample) (batchSize : Nat)
    (permute : List TextExample → List TextExample) (b : List TextExample)
    (hb : b ∈ makeDataIter dataset batchSize true false permute) :
    b.Sorted srcLenLe := by
  simp only [makeDataIter, if_true] at hb
  rcases List.mem_map.mp hb with ⟨c, _, rfl⟩
  exact List.sorted_insertionSort srcLenLe c

/-- Witness for C6 at a concrete one-example dataset. -/
theorem c6_train_batches_sorted_witness : List.Sorted srcLenLe [exT] :=
  c6_train_batches_sorted [exT] 1 id [exT]
    (by simp [makeDataIter, chunkList, List.insertionSort, List.orderedInsert])

/-! ## C9 -/

/-- C9: `data.py`'s `AudioDataset` raises `NameError` on every input with at
least one aligned line pair (the loop's first statement uses the unimported
name `ta`), and the `data.py` audio-loading path can never return a dataset at
all. -/
theorem c9_data_audio_never_succeeds :
    (∀ textLines audioLines : List String,
        1 ≤ textLines.length → textLines.length = audioLines.length →
        audioInitData textLines audioLines = .error .nameError)
      ∧ ∀ (textLines audioLines : List String) (exs : List AudioExample),
          audioInitData textLines audioLines ≠ .ok exs := by
  constructor
  · intro textLines audioLines h1 h2
    simp only [audioInitData]
    rw [if_neg (by omega)]
    cases hzip : textLines.zip audioLines with
    | nil =>
      exfalso
      have hlen := List.length_zip textLines audioLines
      rw [hzip] at hlen
      simp at hlen
      omega
    | cons p ps => rfl
  · intro textLines audioLines exs
    simp only [audioInitData]
    split
    · simp
    · split <;> simp

/-- Witness for C9 at a concrete aligned input. -/
theorem c9_data_audio_never_succeeds_witness :
    audioInitData ["a"] ["f"] = .error .nameError :=
  c9_data_audio_never_succeeds.1 ["a"] ["f"] (by decide) (by decide)

/-! ## C10 -/

/-- C10: `helpers.load_audio_data` never returns: whenever the training
`AudioDataset` construction succeeds, the following `build_vocab` call —
made with the keyword argument `data=`, which `build_vocab`'s parameters
`(field, max_size, min_freq, dataset, vocab_file)` do not accept — raises
`TypeError`, so no call of `helpers.load_audio_data` produces a result. -/
theorem c10_load_audio_data_type_error :
    (∀ (env : AudioEnv) (char : Bool) (maxAudio maxSent : Nat)
        (trainText trainAudio : List String) (exs : List AudioExample),
        helpersLoadAudioData env char maxAudio maxSent trainText trainAudio ≠
          .ok exs)
      ∧ ∀ (env : AudioEnv) (char : Bool) (maxAudio maxSent : Nat)
          (trainText trainAudio : List String) (td : List AudioExample),
          loadAudioTrainData env char maxAudio maxSent trainText trainAudio =
              .ok td →
          helpersLoadAudioData env char maxAudio maxSent trainText trainAudio =
            .error .typeError := by
  have hkw : kwargsAccepted buildVocabParams loadAudioVocabKwargs = false := by decide
  constructor
  · intro env char maxAudio maxSent trainText trainAudio exs
    simp only [helpersLoadAudioData]
    cases h : loadAudioTrainData env char maxAudio maxSent trainText trainAudio with
    | error e => simp
    | ok td => simp [hkw]
  · intro env char maxAudio maxSent trainText trainAudio td h
    simp only [helpersLoadAudioData]
    rw [h]
    simp [hkw]

/-- Witness for C10 at a concrete input whose training dataset construction
succeeds. -/
theorem c10_load_audio_data_type_error_witness :
    helpersLoadAudioData envFour true 3 10 ["ab"] ["f"] = .error .typeError :=
  c10_load_audio_data_type_error.2 envFour true 3 10 ["ab"] ["f"]
    [mkAudioExample envFour (tokOf true) true "ab" "f"] (by decide)

/-! ## Lemmas about the dummy source line and the audio loop -/

theorem string_data_mk (l : List Char) : (String.mk l).data = l := rfl

theorem flatten_replicate_singleton_length {α : Type _} (k : Nat) (c : α) :
    ((List.replicate k [c]).flatten).length = k := by
  induction k with
  | zero => rfl
  | succ n ih => simp [List.replicate_succ, ih]

/-- Token count of the character-level dummy line `"a" * n`. -/
theorem charTok_pyRepeat_a (n : Int) :
    (charTok (pyRepeat "a" n)).length = n.toNat := by
  have h : "a".data = ['a'] := rfl
  simp [charTok, pyRepeat, string_data_mk, h, flatten_replicate_singleton_length]

theorem splitSp_flatten_replicate (k : Nat) :
    splitSp ((List.replicate k ['a', ' ']).flatten) =
      List.replicate k ['a'] ++ [[]] := by
  induction k with
  | zero => rfl
  | succ n ih => simp [List.replicate_succ, splitSp, ih]

theorem filterMap_some_replicate (k : Nat) :
    (List.replicate k ['a']).filterMap
      (fun w => if w.isEmpty then none else some (String.mk w)) =
      List.replicate k "a" := by
  induction k with
  | zero => rfl
  | succ n ih => simp [List.replicate_succ, List.filterMap_cons, ih]

/-- Tokenization of the word-level dummy line `"a " * n`. -/
theorem pySplit_pyRepeat_a (n : Int) :
    pySplit (pyRepeat "a " n) = List.replicate n.toNat "a" := by
  have h : "a ".data = ['a', ' '] := rfl
  simp only [pySplit, pyRepeat, string_data_mk, h, splitSp_flatten_replicate]
  rw [List.filterMap_append, filterMap_some_replicate]
  simp

/-- At either level, the dummy source line of an audio example tokenizes to
`frame count - 1` tokens (truncated at zero, as Python's `"a" * (-1) = ""`
does). -/
theorem tokOf_audioDummy_length (char : Bool) (fr : Nat) :
    (tokOf char (audioDummy char fr)).length = fr - 1 := by
  cases char
  · simp [tokOf, audioDummy, pySplit_pyRepeat_a]
  · simp [tokOf, audioDummy, charTok_pyRepeat_a]

/-- The statistics counter of the audio loop equals the number of examples the
loop appended. -/
theorem audioLoop_cnt (env : AudioEnv) (tok : String → List String)
    (char train : Bool) :
    ∀ pairs : List (String × String),
      (audioLoop env tok char train pairs).2 =
        (audioLoop env tok char train pairs).1.length := by
  intro pairs
  induction pairs with
  | nil => rfl
  | cons p rest ih =>
    cases train with
    | false => simp [audioLoop, ih]
    | true =>
      by_cases hc : pyStrip p.1 ≠ "" ∧ pyStrip p.2 ≠ "" ∧ 44 < env.fsize (pyStrip p.2) ∧
          env.frames (pyStrip p.2) / ((pyStrip p.1).length + 1) < 10
      · simp [audioLoop, hc, ih]
      · simp [audioLoop, hc, ih]

/-- The examples built by a training-mode audio loop are exactly the stripped
pairs surviving the in-loop guard. -/
theorem audioLoop_train_fst (env : AudioEnv) (tok : String → List String)
    (char : Bool) :
    ∀ pairs : List (String × String),
      (audioLoop env tok char true pairs).1 =
        pairs.filterMap (fun p =>
          if pyStrip p.1 ≠ "" ∧ pyStrip p.2 ≠ "" ∧ 44 < env.fsize (pyStrip p.2) ∧
              env.frames (pyStrip p.2) / ((pyStrip p.1).length + 1) < 10
          then some (mkAudioExample env tok char (pyStrip p.1) (pyStrip p.2))
          else none) := by
  intro pairs
  induction pairs with
  | nil => rfl
  | cons p rest ih =>
    by_cases hc : pyStrip p.1 ≠ "" ∧ pyStrip p.2 ≠ "" ∧ 44 < env.fsize (pyStrip p.2) ∧
        env.frames (pyStrip p.2) / ((pyStrip p.1).length + 1) < 10
    · simp [audioLoop, List.filterMap_cons, hc, ih]
    · simp [audioLoop, List.filterMap_cons, hc, ih]

/-- A non-training audio loop appends one example per aligned pair,
unconditionally. -/
theorem audioLoop_nontrain_eq (env : AudioEnv) (tok : String → List String)
    (char : Bool) :
    ∀ pairs : List (String × String),
      audioLoop env tok char false pairs =
        (pairs.map (fun p => mkAudioExample env tok char (pyStrip p.1) (pyStrip p.2)),
          pairs.length) := by
  intro pairs
  induction pairs with
  | nil => rfl
  | cons p rest ih => simp [audioLoop, ih]

/-! ## C7 -/

/-- C7: every audio example constructed by `AudioDataset` carries a synthetic
source sequence of exactly `frame count - 1` tokens — at character level (a
repeated single character) and at word/bpe level (space-separated dummy
tokens) alike, the level's tokenizer being tied to the `char_level` flag as
`load_audio_data` ties them. -/
theorem c7_dummy_source_length (env : AudioEnv) (char train : Bool)
    (textLines audioLines : List String) (filterPred : AudioExample → Bool)
    (exs : List AudioExample)
    (hfr : ∀ a, 1 ≤ env.frames a)
    (hok : audioInitHelpers env (tokOf char) char train textLines audioLines
      filterPred = .ok exs) :
    ∀ ex ∈ exs, (ex.src.length : Int) = (ex.mfcc : Int) - 1 := by
  intro ex hex
  have hmem : ∃ t a, ex = mkAudioExample env (tokOf char) char t a := by
    simp only [audioInitHelpers] at hok
    by_cases hlen : textLines.length ≠ audioLines.length
    · rw [if_pos hlen] at hok
      simp at hok
    · rw [if_neg hlen] at hok
      by_cases hz : (audioLoop env (tokOf char) char train
          (textLines.zip audioLines)).2 = 0
      · rw [if_pos hz] at hok
        simp at hok
      · rw [if_neg hz] at hok
        have hexs : exs = (audioLoop env (tokOf char) char train
            (textLines.zip audioLines)).1.filter filterPred := by
          injection hok with h
          exact h.symm
        rw [hexs] at hex
        have hex1 : ex ∈ (audioLoop env (tokOf char) char train
            (textLines.zip audioLines)).1 := List.mem_of_mem_filter hex
        cases train with
        | false =>
          rw [audioLoop_nontrain_eq] at hex1
          rcases List.mem_map.mp hex1 with ⟨p, _, hp⟩
          exact ⟨_, _, hp.symm⟩
        | true =>
          rw [audioLoop_train_fst] at hex1
          rcases List.mem_filterMap.mp hex1 with ⟨p, _, hp⟩
          by_cases hcond : pyStrip p.1 ≠ "" ∧ pyStrip p.2 ≠ "" ∧
              44 < env.fsize (pyStrip p.2) ∧
              env.frames (pyStrip p.2) / ((pyStrip p.1).length + 1) < 10
          · rw [if_pos hcond] at hp
            injection hp with h
            exact ⟨_, _, h.symm⟩
          · rw [if_neg hcond] at hp
            exact Option.noConfusion hp
  rcases hmem with ⟨t, a, hex2⟩
  subst hex2
  simp only [mkAudioExample]
  rw [tokOf_audioDummy_length]
  have := hfr a
  omega

/-- Witness for C7 at a concrete dev-style load with 4-frame audio. -/
theorem c7_dummy_source_length_witness :
    ((mkAudioExample envFour (tokOf true) true "ab" "f").src.length : Int) =
      ((mkAudioExample envFour (tokOf true) true "ab" "f").mfcc : Int) - 1 :=
  c7_dummy_source_length envFour true false ["ab"] ["f"] (fun _ => true)
    [mkAudioExample envFour (tokOf true) true "ab" "f"]
    (fun _ => (by decide : (1 : Nat) ≤ 4)) (by decide)
    (mkAudioExample envFour (tokOf true) true "ab" "f") (by simp)

/-! ## C4 -/

/-- C4 counterexample: with 4-frame audio, `max_audio_length = 3` and an
otherwise innocuous pair, the training pipeline keeps the example (the
placeholder source has `4 - 1 = 3 ≤ 3` tokens) even though the claimed
keep-condition — which compares the frame count itself against
`max_audio_length` — is false; and conversely, a pair whose audio-reference
line is empty satisfies every clause of the claimed condition yet yields no
example, because the loop also requires `audio_line != ''`. -/
theorem c4_counterexample :
    (loadAudioTrainData envFour true 3 10 ["ab"] ["f"] =
        .ok [mkAudioExample envFour (tokOf true) true "ab" "f"]
      ∧ ¬keepCondClaimed envFour true 3 10 "ab" "f")
    ∧ (loadAudioTrainData envFour true 10 10 ["x", "ab"] ["g", ""] =
        .ok [mkAudioExample envFour (tokOf true) true "x" "g"]
      ∧ keepCondClaimed envFour true 10 10 "ab" "") :=
  ⟨⟨by decide, by decide⟩, ⟨by decide, by decide⟩⟩

/-- Pointwise form of the amended training keep-condition: filtering the
in-loop guarded example through `load_audio_data`'s `filter_pred` equals
guarding by the full six-clause condition. -/
theorem option_keep_eq (env : AudioEnv) (char : Bool) (maxAudio maxSent : Nat)
    (t a : String) :
    Option.filter (fun x => decide (x.src.length ≤ maxAudio) &&
        decide (x.trg.length ≤ maxSent))
      (if t ≠ "" ∧ a ≠ "" ∧ 44 < env.fsize a ∧ env.frames a / (t.length + 1) < 10
       then some (mkAudioExample env (tokOf char) char t a) else none) =
    (if keepCondAmended env char maxAudio maxSent t a
     then some (mkAudioExample env (tokOf char) char t a) else none) := by
  by_cases h4 : t ≠ "" ∧ a ≠ "" ∧ 44 < env.fsize a ∧ env.frames a / (t.length + 1) < 10
  · rw [if_pos h4]
    by_cases h5 : env.frames a - 1 ≤ maxAudio ∧ (tokOf char t).length ≤ maxSent
    · rw [if_pos (show keepCondAmended env char maxAudio maxSent t a from
        ⟨h4.1, h4.2.1, h4.2.2.1, h4.2.2.2, h5.1, h5.2⟩)]
      simp [Option.filter, mkAudioExample, tokOf_audioDummy_length, h5.1, h5.2]
    · rw [if_neg (show ¬keepCondAmended env char maxAudio maxSent t a from
        fun hk => h5 ⟨hk.2.2.2.2.1, hk.2.2.2.2.2⟩)]
      rcases not_and_or.mp h5 with h | h
      · simp [Option.filter, mkAudioExample, tokOf_audioDummy_length, h]
      · simp [Option.filter, mkAudioExample, tokOf_audioDummy_length, h]
  · rw [if_neg h4]
    rw [if_neg (show ¬keepCondAmended env char maxAudio maxSent t a from
      fun hk => h4 ⟨hk.1, hk.2.1, hk.2.2.1, hk.2.2.2.1⟩)]
    rfl

/-- C4 amended: when loading the training split, the audio pipeline keeps an
example if and only if the transcript line is non-empty, the audio-reference
line is non-empty, the referenced file's byte size exceeds 44, the ratio check
`frame_count // (char_count + 1)` is strictly below 10, the placeholder source
length — the frame count minus one — is within the configured maximum audio
length, and the transcript token count is within the configured maximum
sentence length. -/
theorem c4_train_keep_amended (env : AudioEnv) (char : Bool)
    (maxAudio maxSent : Nat) (textLines audioLines : List String)
    (hlen : textLines.length = audioLines.length)
    (hcnt : 0 < (audioLoop env (tokOf char) char true
      (textLines.zip audioLines)).2) :
    loadAudioTrainData env char maxAudio maxSent textLines audioLines =
      .ok ((textLines.zip audioLines).filterMap (fun p =>
        if keepCondAmended env char maxAudio maxSent (pyStrip p.1) (pyStrip p.2)
        then some (mkAudioExample env (tokOf char) char (pyStrip p.1) (pyStrip p.2))
        else none)) := by
  simp only [loadAudioTrainData, audioInitHelpers]
  rw [if_neg (by omega)]
  rw [if_neg (by omega)]
  congr 1
  rw [audioLoop_train_fst, List.filter_filterMap]
  congr 1
  funext p
  exact option_keep_eq env char maxAudio maxSent (pyStrip p.1) (pyStrip p.2)

/-- Witness for the amended C4 at a concrete kept example. -/
theorem c4_train_keep_amended_witness :
    loadAudioTrainData envFour true 3 10 ["ab"] ["f"] =
      .ok (((["ab"].zip ["f"]).filterMap (fun p =>
        if keepCondAmended envFour true 3 10 (pyStrip p.1) (pyStrip p.2)
        then some (mkAudioExample envFour (tokOf true) true (pyStrip p.1) (pyStrip p.2))
        else none))) :=
  c4_train_keep_amended envFour true 3 10 ["ab"] ["f"] (by decide) (by decide)

/-! ## C5 -/

/-- C5 counterexample: a non-training load keeps the example of an empty
transcript line whose referenced audio has byte size 0 — the non-training
branch of the loop appends unconditionally, so neither the non-empty-line nor
the byte-size requirement claimed for non-training splits exists in the
code. -/
theorem c5_counterexample :
    audioInitHelpers envTiny (tokOf true) true false [""] ["f"] (fun _ => true) =
        .ok [mkAudioExample envTiny (tokOf true) true "" "f"]
      ∧ (mkAudioExample envTiny (tokOf true) true "" "f").trg = []
      ∧ envTiny.fsize "f" ≤ 44 :=
  ⟨by decide, by decide, by decide⟩

/-- C5 amended: when loading a non-training split, the audio loader applies no
per-example filter at all — every aligned line pair yields an example,
regardless of transcript emptiness or audio byte size (and the dev/test
constructions pass no `filter_pred`). -/
theorem c5_nontrain_no_filter_amended (env : AudioEnv)
    (tok : String → List String) (char : Bool)
    (textLines audioLines : List String)
    (hlen : textLines.length = audioLines.length)
    (hne : 1 ≤ textLines.length) :
    audioInitHelpers env tok char false textLines audioLines (fun _ => true) =
      .ok ((textLines.zip audioLines).map
        (fun p => mkAudioExample env tok char (pyStrip p.1) (pyStrip p.2))) := by
  simp only [audioInitHelpers]
  rw [if_neg (by omega)]
  rw [audioLoop_nontrain_eq]
  rw [if_neg (by
    simp only [List.length_zip]
    omega)]
  simp [List.filter_true]

/-- Witness for the amended C5 at a concrete input with an empty transcript
line. -/
theorem c5_nontrain_no_filter_amended_witness :
    audioInitHelpers envTiny (tokOf true) true false [""] ["f"] (fun _ => true) =
      .ok ((([""].zip ["f"]).map
        (fun p => mkAudioExample envTiny (tokOf true) true (pyStrip p.1) (pyStrip p.2)))) :=
  c5_nontrain_no_filter_amended envTiny (tokOf true) true [""] ["f"]
    (by decide) (by decide)

/-! ## C8 -/

/-- C8 counterexample: a training load whose single pair is filtered out (the
transcript line is empty) runs the per-line loop without error, yet
construction does not complete — the statistics line's `summa/count` divides
by zero and no dataset is returned, refuting "best-effort". -/
theorem c8_counterexample :
    audioInitHelpers envTiny (tokOf true) true true [""] ["f"] (fun _ => true) =
      .error .zeroDivisionError := by decide

/-- C8 amended: the statistics write is on the success path of
`AudioDataset.__init__`: with aligned inputs, construction returns a dataset
exactly when the loop appended at least one example, and raises
`ZeroDivisionError` (from the mean's `summa/count` with `count = 0`) exactly
when it appended none. -/
theorem c8_stats_on_success_path (env : AudioEnv) (tok : String → List String)
    (char train : Bool) (textLines audioLines : List String)
    (filterPred : AudioExample → Bool)
    (hlen : textLines.length = audioLines.length) :
    ((∃ exs, audioInitHelpers env tok char train textLines audioLines filterPred =
        .ok exs) ↔
      (audioLoop env tok char train (textLines.zip audioLines)).1 ≠ [])
    ∧ (audioInitHelpers env tok char train textLines audioLines filterPred =
        .error .zeroDivisionError ↔
      (audioLoop env tok char train (textLines.zip audioLines)).1 = []) := by
  have hc := audioLoop_cnt env tok char train (textLines.zip audioLines)
  simp only [audioInitHelpers]
  rw [if_neg (by omega)]
  by_cases hz : (audioLoop env tok char train (textLines.zip audioLines)).2 = 0
  · rw [if_pos hz]
    have hnil : (audioLoop env tok char train (textLines.zip audioLines)).1 = [] := by
      rw [hc] at hz
      exact List.length_eq_zero.mp hz
    constructor
    · simp [hnil]
    · simp [hnil]
  · rw [if_neg hz]
    have hnnil : (audioLoop env tok char train (textLines.zip audioLines)).1 ≠ [] := by
      rw [hc] at hz
      intro hcon
      rw [hcon] at hz
      exact hz rfl
    constructor
    · simp [hnnil]
    · simp [hnnil]

/-- Witness for the amended C8 at a concrete non-training input. -/
theorem c8_stats_on_success_path_witness :
    ((∃ exs, audioInitHelpers envTiny (tokOf true) true false ["a"] ["f"]
        (fun _ => true) = .ok exs) ↔
      (audioLoop envTiny (tokOf true) true false (["a"].zip ["f"])).1 ≠ [])
    ∧ (audioInitHelpers envTiny (tokOf true) true false ["a"] ["f"]
        (fun _ => true) = .error .zeroDivisionError ↔
      (audioLoop envTiny (tokOf true) true false (["a"].zip ["f"])).1 = []) :=
  c8_stats_on_success_path envTiny (tokOf true) true false ["a"] ["f"]
    (fun _ => true) (by decide)

end SpeechJoey

